import Mathlib

/-!
Verification of the StoryTeller schema-aware NL-to-SQL pipeline.

Shallow embedding of `src/database_analyzer.py`, `src/metadata_manager.py`
and `src/query_parser.py`.  Python strings are Lean `String`s (lists of
characters), Python dicts (which preserve insertion order) are association
lists `List (String × α)`, numeric statistics are rationals, and fallible
database calls are oracles of type `String → Option Nat` (`none` = the
query raised).  File I/O and timestamps of the metadata codec are
parameterized away; the JSON document itself is modelled as a structure.
-/

/-- Python `str.lower()` restricted to the basic-latin range, applied
characterwise (this is exactly what `Char.toLower` implements). -/
def pyLower (s : String) : String := ⟨s.data.map Char.toLower⟩

/-- Python `str.strip()`: drop whitespace from both ends. -/
def pyStripL (l : List Char) : List Char :=
  ((l.dropWhile Char.isWhitespace).reverse.dropWhile Char.isWhitespace).reverse

/-- Python `str.strip()` on strings. -/
def pyStrip (s : String) : String := ⟨pyStripL s.data⟩

/-- Python `needle in haystack` (substring containment) on character lists. -/
def hasInfixL (need : List Char) : List Char → Bool
  | [] => need.isEmpty
  | c :: t => need.isPrefixOf (c :: t) || hasInfixL need t

/-- Python `sub in s` (substring containment). -/
def strContains (s sub : String) : Bool := hasInfixL sub.data s.data

/-- Fueled worker for `replaceAllL`; the fuel only makes the recursion
structural and is always called with at least the input's length. -/
def replaceAllFuel (pat rep : List Char) : Nat → List Char → List Char
  | _, [] => []
  | 0, l => l
  | fuel + 1, c :: t =>
    if pat ≠ [] ∧ pat.isPrefixOf (c :: t) then
      rep ++ replaceAllFuel pat rep fuel ((c :: t).drop pat.length)
    else
      c :: replaceAllFuel pat rep fuel t

/-- Python `str.replace(pat, rep)`: replace every non-overlapping occurrence,
scanning left to right. -/
def replaceAllL (pat rep l : List Char) : List Char :=
  replaceAllFuel pat rep l.length l

/-- Python `s.replace(old, new)` on strings. -/
def pyReplace (s old new : String) : String := ⟨replaceAllL old.data new.data s.data⟩

/-- Python `s.endswith(suf)`. -/
def pyEndsWith (s suf : String) : Bool := suf.data.isSuffixOf s.data

/-- Python `s.split(sep)` for a single-character separator (keeps empty
pieces; the result is always non-empty). -/
def splitOnChar (sep : Char) : List Char → List (List Char)
  | [] => [[]]
  | c :: t =>
    if c = sep then [] :: splitOnChar sep t
    else
      match splitOnChar sep t with
      | h :: r => (c :: h) :: r
      | [] => [[c]]

/-- Python `s.split('.')`. -/
def splitOnDot (l : List Char) : List (List Char) := splitOnChar '.' l

/-- Python `key.split('.')[-1]`: the simple (unqualified) table name. -/
def lastComp (s : String) : String := ⟨(splitOnDot s.data).getLastD []⟩

/-- Python `key.split('.')[0]`: the schema component of a table key. -/
def headComp (s : String) : String := ⟨(splitOnDot s.data).headD []⟩

/-- Worker for `wordsBy`: `acc` holds the reversed current run. -/
def wordsByAux (p : Char → Bool) : List Char → List Char → List (List Char)
  | [], acc => if acc.isEmpty then [] else [acc.reverse]
  | c :: t, acc =>
    if p c then
      if acc.isEmpty then wordsByAux p t [] else acc.reverse :: wordsByAux p t []
    else wordsByAux p t (c :: acc)

/-- Python `str.split()` family: maximal runs of characters not satisfying
`p`, separators and empty pieces dropped. -/
def wordsBy (p : Char → Bool) (l : List Char) : List (List Char) := wordsByAux p l []

/-- Lookup in an insertion-ordered association list (Python `dict[k]`). -/
def alookup (m : List (String × α)) (k : String) : Option α :=
  (m.find? (fun e => e.1 == k)).map (fun e => e.2)

/-- Python `dict[k] = v`: overwrite in place if the key exists (keeping its
position), otherwise append. -/
def dictInsert (m : List (String × α)) (k : String) (v : α) : List (String × α) :=
  if m.any (fun e => e.1 == k) then m.map (fun e => if e.1 == k then (k, v) else e)
  else m ++ [(k, v)]

/-- Parse a run of decimal digits (Python `int(...)` on a `\d+` regex group). -/
def natOfDigits (l : List Char) : Nat := l.foldl (fun n c => n * 10 + (c.toNat - 48)) 0

/-- Round to three decimal places, the embedding of Python `round(x, 3)`
(the claims never hit exact half-way ties, where Python rounds to even). -/
def round3 (x : ℚ) : ℚ := (round (x * 1000) : ℤ) / 1000

/-! ## Data model (from `database_analyzer.py`) -/

/-- One column of a table, as built by `load_and_filter_schema` (the unused
`default` entry of the Python dict is omitted). -/
structure Column where
  name : String
  ctype : String
  nullable : Bool
  position : Nat
deriving DecidableEq, Repr

/-- Per-column statistics produced by `analyze_column_data` (base statistics
only; the type-specific extrema are never read by the claims under study). -/
structure ColumnStats where
  ctype : String
  total_count : Nat
  non_null_count : Nat
  unique_count : Nat
  null_percentage : ℚ
  uniqueness_r : ℚ
deriving DecidableEq, Repr

/-- A sample row (`sample_data` entries), kept abstract as key/value pairs. -/
abbrev SampleRow := List (String × String)

/-- Entry of `DatabaseAnalyzer.filtered_tables`. -/
structure TableInfo where
  row_count : Nat
  column_count : Nat
  columns : List Column
deriving DecidableEq, Repr

/-- Entry of `DatabaseAnalyzer.table_stats`. -/
structure TableStats where
  row_count : Nat
  column_count : Nat
  sample_data : List SampleRow
  column_analysis : List (String × ColumnStats)
  last_analyzed : String
deriving DecidableEq, Repr

/-- The mutable state of a `DatabaseAnalyzer` (connection handles omitted). -/
structure Analyzer where
  server : String
  database : String
  schema_info : List (String × String)
  table_columns : List (String × List Column)
  table_stats : List (String × TableStats)
  filtered_tables : List (String × TableInfo)
deriving DecidableEq, Repr

/-- A fresh analyzer with empty catalog maps. -/
def emptyAnalyzer (server database : String) : Analyzer :=
  ⟨server, database, [], [], [], []⟩

/-! ## `database_analyzer.py`: row counts, filtering -/

/-- `DatabaseAnalyzer.get_table_row_count`: a failing count query (`none`)
is reported as `0` and never propagates. -/
def get_table_row_count (rc : String → Option Nat) (table_name : String) : Nat :=
  (rc table_name).getD 0

/-- One schema-query result row (`INFORMATION_SCHEMA` tuple); the unused
`COLUMN_DEFAULT` is omitted. -/
structure SchemaRow where
  tschema : String
  table : String
  column : String
  dtype : String
  nullable : String
  position : Nat
deriving DecidableEq, Repr

/-- `DatabaseAnalyzer._filter_and_analyze_tables`: keep a table iff its
queried row count reaches `min_rows`; profiled column statistics are fetched
through the `analyzeCols` oracle only for tables of at most 10000 rows. -/
def filter_and_analyze_tables (rc : String → Option Nat)
    (sample : String → List SampleRow)
    (analyzeCols : String → List Column → List (String × ColumnStats))
    (nowTs : String) (a : Analyzer)
    (table_data : List (String × List Column)) (min_rows : Nat) : Analyzer :=
  table_data.foldl (fun st kv =>
    let row_count := get_table_row_count rc kv.1
    if min_rows ≤ row_count then
      { st with
        table_columns := dictInsert st.table_columns kv.1 kv.2,
        filtered_tables := dictInsert st.filtered_tables kv.1
          ⟨row_count, kv.2.length, kv.2⟩,
        table_stats := dictInsert st.table_stats kv.1
          ⟨row_count, kv.2.length, sample kv.1,
           if row_count ≤ 10000 then analyzeCols kv.1 kv.2 else [], nowTs⟩ }
    else st) a

/-- Grouping loop of `DatabaseAnalyzer.load_and_filter_schema`: build
`table_data` keyed by `schema.table` and register every table (filtered or
not) in `schema_info` under its lower-cased simple name. -/
def groupSchemaRows (a : Analyzer) (rows : List SchemaRow) :
    List (String × List Column) × Analyzer :=
  rows.foldl (fun st r =>
    let table_key := r.tschema ++ "." ++ r.table
    let st :=
      if (st.1.any (fun e => e.1 == table_key)) then st
      else (st.1 ++ [(table_key, [])],
            { st.2 with schema_info := dictInsert st.2.schema_info (pyLower r.table) table_key })
    (st.1.map (fun e =>
      if e.1 == table_key then
        (e.1, e.2 ++ [⟨r.column, r.dtype, r.nullable == "YES", r.position⟩])
      else e), st.2)) ([], a)

/-- `DatabaseAnalyzer.load_and_filter_schema`. -/
def load_and_filter_schema (rc : String → Option Nat)
    (sample : String → List SampleRow)
    (analyzeCols : String → List Column → List (String × ColumnStats))
    (nowTs : String) (a : Analyzer) (rows : List SchemaRow) (min_rows : Nat) : Analyzer :=
  let st := groupSchemaRows a rows
  filter_and_analyze_tables rc sample analyzeCols nowTs st.2 st.1 min_rows

/-! ## `metadata_manager.py`: quality score, key candidates -/

/-- `MetadataManager.calculate_data_quality_score`. -/
def calculate_data_quality_score (analyzer : Option Analyzer) (table_key : String) : ℚ :=
  match analyzer with
  | none => 0
  | some an =>
    match alookup an.table_stats table_key with
    | none => 0
    | some stats =>
      if stats.column_analysis.isEmpty then 0.5
      else
        let scores := stats.column_analysis.map (fun e =>
          let null_score := max 0 ((100 - e.2.null_percentage) / 100)
          let uniqueness_score := min 1 e.2.uniqueness_r
          let data_presence_score : ℚ := if 0 < e.2.non_null_count then 1 else 0
          null_score * 0.5 + uniqueness_score * 0.3 + data_presence_score * 0.2)
        if scores.isEmpty then 0 else round3 (scores.sum / scores.length)

/-- The source constant `0.95`, written as the normalized rational `19/20`
so that comparisons on it compute by kernel reduction. -/
def q095 : ℚ := ⟨19, 20, by decide, by decide⟩

/-- `MetadataManager.identify_primary_key_candidates`. -/
def identify_primary_key_candidates (analyzer : Option Analyzer) (table_key : String) :
    List String :=
  match analyzer with
  | none => []
  | some an =>
    match alookup an.table_stats table_key with
    | none => []
    | some stats =>
      (stats.column_analysis.filter (fun e =>
        q095 ≤ e.2.uniqueness_r ∧ e.2.null_percentage < 5 ∧
          pyLower e.2.ctype ∈ ["int", "bigint", "uniqueidentifier", "varchar", "nvarchar"]
        )).map (fun e => e.1)

/-- One foreign-key candidate entry
(`{'column': ..., 'potential_references': ...}`). -/
structure FKCandidate where
  column : String
  potential_refs : List String
deriving DecidableEq, Repr

/-- The stem the code derives from a column name: remove every occurrence of
`"_id"`, then every occurrence of `"id"`, from the lower-cased name. -/
def fkStem (col_name : String) : String :=
  pyReplace (pyReplace (pyLower col_name) "_id" "") "id" ""

/-- The catalog tables whose lower-cased simple name contains the code's stem
of `col_name` as a substring, in catalog iteration order. -/
def fkMatches (an : Analyzer) (col_name : String) : List String :=
  (an.filtered_tables.map (fun e => e.1)).filter
    (fun t => strContains (lastComp (pyLower t)) (fkStem col_name))

/-- `MetadataManager.identify_foreign_key_candidates`. -/
def identify_foreign_key_candidates (analyzer : Option Analyzer) (table_key : String) :
    List FKCandidate :=
  match analyzer with
  | none => []
  | some an =>
    match alookup an.table_stats table_key with
    | none => []
    | some stats =>
      stats.column_analysis.filterMap (fun e =>
        if pyLower e.2.ctype ∈ ["int", "bigint"] ∧
            pyEndsWith (pyLower e.1) "id" = true ∧
            ¬ pyLower e.1 ∈ ["id", "rowid"] then
          let matching_tables := fkMatches an e.1
          if matching_tables.isEmpty then none
          else some ⟨e.1, matching_tables.take 3⟩
        else none)

/-! ## `metadata_manager.py`: metadata snapshot codec -/

/-- The `statistics` block of one exported table entry. -/
structure TableStatistics where
  data_quality_score : ℚ
  primary_key_candidates : List String
  foreign_key_candidates : List FKCandidate
deriving DecidableEq, Repr

/-- One entry of the exported `tables` mapping. -/
structure TableMeta where
  table_name : String
  tschema : String
  row_count : Nat
  column_count : Nat
  columns : List Column
  sample_data : List SampleRow
  column_analysis : List (String × ColumnStats)
  statistics : TableStatistics
deriving DecidableEq, Repr

/-- The `database_info` block of the snapshot. -/
structure DatabaseInfo where
  server : String
  database : String
  export_timestamp : String
  total_tables : Nat
  total_rows : Nat
deriving DecidableEq, Repr

/-- The metadata snapshot document (the JSON file's contents). -/
structure Metadata where
  database_info : DatabaseInfo
  tables : List (String × TableMeta)
deriving DecidableEq, Repr

/-- `MetadataManager.export_database_metadata`, as the pure projection of the
catalog onto the snapshot document (file writing and the generated filename
are outside the model; the export timestamp is a parameter). -/
def export_database_metadata (analyzer : Option Analyzer) (timestamp : String) :
    Option Metadata :=
  match analyzer with
  | none => none
  | some an =>
    some
      { database_info :=
          ⟨an.server, an.database, timestamp, an.filtered_tables.length,
            (an.table_stats.map (fun e => e.2.row_count)).sum⟩,
        tables := an.filtered_tables.map (fun kv =>
          (kv.1,
            { table_name := lastComp kv.1,
              tschema := headComp kv.1,
              row_count := kv.2.row_count,
              column_count := kv.2.column_count,
              columns := kv.2.columns,
              sample_data := ((alookup an.table_stats kv.1).map
                (fun s => s.sample_data)).getD [],
              column_analysis := ((alookup an.table_stats kv.1).map
                (fun s => s.column_analysis)).getD [],
              statistics :=
                ⟨calculate_data_quality_score (some an) kv.1,
                 identify_primary_key_candidates (some an) kv.1,
                 identify_foreign_key_candidates (some an) kv.1⟩ })) }

/-- `MetadataManager.load_metadata_from_json`, reconstruction step: for every
snapshot table, rebuild `filtered_tables`, `table_columns` and `schema_info`
on the given analyzer.  Note that `table_stats` is not touched. -/
def load_metadata_from_json (a : Analyzer) (m : Metadata) : Analyzer :=
  m.tables.foldl (fun st kv =>
    { st with
      filtered_tables := dictInsert st.filtered_tables kv.1
        ⟨kv.2.row_count, kv.2.column_count, kv.2.columns⟩,
      table_columns := dictInsert st.table_columns kv.1 kv.2.columns,
      schema_info := dictInsert st.schema_info (pyLower kv.2.table_name) kv.1 }) a

/-! ## `query_parser.py`: intent classification -/

/-- The analysis dict returned by `QueryParser.analyze_user_query_context`. -/
structure QueryContext where
  query_type : String
  complexity : String
  suggested_tables : List String
  suggested_columns : List String
  query_intent : List String
  data_requirements : List String
deriving DecidableEq, Repr

/-- The five keyword groups of the classifier, in evaluation order, paired
with the `(query_type, intent)` they assign. -/
def keywordGroups : List (List String × String × String) :=
  [(["count", "how many", "total number"], ("aggregation", "count_records")),
   (["average", "mean", "avg"], ("aggregation", "calculate_average")),
   (["sum", "total"], ("aggregation", "sum_values")),
   (["show", "list", "display", "get"], ("retrieval", "retrieve_data")),
   (["find", "search", "where"], ("filtered_retrieval", "search_data"))]

/-- The complexity indicator words. -/
def complexityWords : List String :=
  ["where", "and", "or", "join", "group", "order", "having"]

/-- `QueryParser.analyze_user_query_context`. -/
def analyze_user_query_context (analyzer : Option Analyzer) (natural_query : String) :
    QueryContext :=
  let query_lower := pyLower natural_query
  let qt :=
    if ["count", "how many", "total number"].any (fun w => strContains query_lower w) then
      ("aggregation", ["count_records"])
    else if ["average", "mean", "avg"].any (fun w => strContains query_lower w) then
      ("aggregation", ["calculate_average"])
    else if ["sum", "total"].any (fun w => strContains query_lower w) then
      ("aggregation", ["sum_values"])
    else if ["show", "list", "display", "get"].any (fun w => strContains query_lower w) then
      ("retrieval", ["retrieve_data"])
    else if ["find", "search", "where"].any (fun w => strContains query_lower w) then
      ("filtered_retrieval", ["search_data"])
    else ("unknown", [])
  let complexity_indicators :=
    (complexityWords.filter (fun w => strContains query_lower w)).length
  let complexity :=
    if 3 ≤ complexity_indicators then "complex"
    else if 1 ≤ complexity_indicators then "moderate"
    else "simple"
  let suggested :=
    match analyzer with
    | none => []
    | some an =>
      (((wordsBy Char.isWhitespace query_lower.data).flatMap (fun kw =>
        (an.filtered_tables.map (fun e => e.1)).filter (fun tk =>
          strContains (lastComp (pyLower tk)) ⟨kw⟩))).eraseDups).take 5
  { query_type := qt.1,
    complexity := complexity,
    suggested_tables := suggested,
    suggested_columns := [],
    query_intent := qt.2,
    data_requirements := [] }

/-- The classification the spec describes: the earliest keyword group with a
keyword present in the lower-cased text wins; no match yields `unknown`. -/
def classifySpec (query_lower : String) : String × List String :=
  match keywordGroups.find? (fun g => g.1.any (fun w => strContains query_lower w)) with
  | some g => (g.2.1, [g.2.2])
  | none => ("unknown", [])

/-- The complexity level determined by substring containment, as the code
computes it: the number of distinct indicator words occurring as substrings. -/
def complexitySpec (query_lower : String) : String :=
  let n := complexityWords.countP (fun w => strContains query_lower w)
  if 3 ≤ n then "complex" else if 1 ≤ n then "moderate" else "simple"

/-- The complexity level the claim describes: indicator words counted only
when they occur as whitespace-delimited tokens of the text. -/
def complexityTokenSpec (query_lower : String) : String :=
  let toks := (wordsBy Char.isWhitespace query_lower.data).map (fun w => (⟨w⟩ : String))
  let n := complexityWords.countP (fun w => toks.contains w)
  if 3 ≤ n then "complex" else if 1 ≤ n then "moderate" else "simple"

/-! ## Spec-side definitions used to state the claims -/

/-- The per-column quality score exactly as the spec phrases it. -/
def specColScore (s : ColumnStats) : ℚ :=
  0.5 * max 0 ((100 - s.null_percentage) / 100) + 0.3 * min 1 s.uniqueness_r +
    0.2 * (if 0 < s.non_null_count then 1 else 0)

/-- The stem as claim C7 describes it: strip an `"_id"` or `"id"` suffix from
the lower-cased column name. -/
def suffixStem (col_name : String) : String :=
  let n := pyLower col_name
  if pyEndsWith n "_id" then ⟨n.data.take (n.data.length - 3)⟩
  else if pyEndsWith n "id" then ⟨n.data.take (n.data.length - 2)⟩
  else n

/-! ## Concrete fixtures for witnesses and counterexamples -/

/-- A single-table catalog whose only table has no profiled column
statistics. -/
def c5WitnessAnalyzer : Analyzer :=
  { emptyAnalyzer "srv" "db" with table_stats := [("dbo.t", ⟨1, 1, [], [], "ts"⟩)] }

/-- Column statistics at the PK boundary `uniqueness_ratio = 0.9499` (the
rationals are written in normalized constructor form so they compute). -/
def pkBoundaryStatsA : ColumnStats :=
  ⟨"int", 10000, 10000, 9499, 0, ⟨9499, 10000, by decide, by decide⟩⟩

/-- Column statistics at the PK boundary `uniqueness_ratio = 0.95`,
`null_percentage = 4.99`. -/
def pkBoundaryStatsB : ColumnStats :=
  ⟨"int", 10000, 10000, 9500, ⟨499, 100, by decide, by decide⟩, q095⟩

/-- Catalog containing only the `0.9499`-uniqueness column. -/
def pkBoundaryAnalyzerA : Analyzer :=
  { emptyAnalyzer "srv" "db" with
    table_stats := [("dbo.t", ⟨10000, 1, [], [("c", pkBoundaryStatsA)], "ts"⟩)] }

/-- Catalog containing only the `0.95`/`4.99` column. -/
def pkBoundaryAnalyzerB : Analyzer :=
  { emptyAnalyzer "srv" "db" with
    table_stats := [("dbo.t", ⟨10000, 1, [], [("c", pkBoundaryStatsB)], "ts"⟩)] }

/-- Fully unique, never-null `int` statistics for FK fixtures. -/
def fkIntStats : ColumnStats := ⟨"int", 100, 100, 100, 0, 1⟩

/-- Catalog with table `dbo.video` and profiled column `video_id`. -/
def fkVideoAnalyzer : Analyzer :=
  { emptyAnalyzer "srv" "db" with
    table_stats := [("dbo.video", ⟨100, 1, [], [("video_id", fkIntStats)], "ts"⟩)],
    filtered_tables := [("dbo.video", ⟨100, 1, []⟩)] }

/-- Catalog with table `dbo.user` and profiled column `user_id`. -/
def fkUserAnalyzer : Analyzer :=
  { emptyAnalyzer "srv" "db" with
    table_stats := [("dbo.user", ⟨100, 1, [], [("user_id", fkIntStats)], "ts"⟩)],
    filtered_tables := [("dbo.user", ⟨100, 1, []⟩)] }

/-! ## Regular-expression engine for the parser's fixed patterns -/

/-- Python `\w` (ASCII range, as used by the source's patterns). -/
def isWordChar (c : Char) : Bool := c.isAlphanum || c == '_'

/-- The character class `["\']`. -/
def isQuoteChar (c : Char) : Bool := c == '"' || c == '\''

/-- Regular-expression fragments sufficient for the fixed patterns of
`query_parser.py`: literals (optionally case-insensitive, for the
`re.IGNORECASE` condition patterns), single characters of a class, greedy
star of a class, greedy or lazy plus of a class (optionally capturing — in
every source pattern the captures are exactly pluses of a class),
alternation, and the `$` anchor. -/
inductive RE where
  | lit (cs : List Char) (ci : Bool)
  | cls (p : Char → Bool)
  | star (p : Char → Bool)
  | plus (p : Char → Bool) (capture : Bool) (lazy : Bool)
  | alt (branches : List (List RE))
  | eos

/-- Prefix test for literal fragments, optionally case-insensitive. -/
def litHeadMatch (ci : Bool) : List Char → List Char → Bool
  | [], _ => true
  | _ :: _, [] => false
  | c :: cs, d :: ds =>
    (if ci then c.toLower == d.toLower else c == d) && litHeadMatch ci cs ds

/-- First `some` in a list of options (the backtracking order of
alternatives). -/
def firstSome : List (Option α) → Option α
  | [] => none
  | some x :: _ => some x
  | none :: t => firstSome t

/-- Backtracking matcher: match the sequence `res` against a prefix of `s`,
returning the captured groups and the remaining suffix.  `fuel` bounds the
number of pattern items processed along one alternative; it is always called
with far more fuel than any source pattern can consume. -/
def reMatch : Nat → List RE → List Char → List (List Char) →
    Option (List (List Char) × List Char)
  | 0, _, _, _ => none
  | _ + 1, [], s, gs => some (gs, s)
  | fuel + 1, RE.lit cs ci :: rs, s, gs =>
    if litHeadMatch ci cs s then reMatch fuel rs (s.drop cs.length) gs else none
  | fuel + 1, RE.cls p :: rs, s, gs =>
    match s with
    | [] => none
    | c :: t => if p c then reMatch fuel rs t gs else none
  | fuel + 1, RE.star p :: rs, s, gs =>
    let run := (s.takeWhile p).length
    firstSome (((List.range (run + 1)).reverse).map (fun i =>
      reMatch fuel rs (s.drop i) gs))
  | fuel + 1, RE.plus p cap lz :: rs, s, gs =>
    let run := (s.takeWhile p).length
    let cands :=
      if lz then (List.range run).map (fun i => i + 1)
      else ((List.range run).map (fun i => i + 1)).reverse
    firstSome (cands.map (fun i =>
      reMatch fuel rs (s.drop i) (if cap then gs ++ [s.take i] else gs)))
  | fuel + 1, RE.alt bs :: rs, s, gs =>
    firstSome (bs.map (fun b => reMatch fuel (b ++ rs) s gs))
  | fuel + 1, RE.eos :: rs, s, gs =>
    if s.isEmpty then reMatch fuel rs s gs else none

/-- `re.search`: try a match at each start position, leftmost first. -/
def reSearch (res : List RE) : List Char → Option (List (List Char))
  | [] =>
    match reMatch 100 res [] [] with
    | some (gs, _) => some gs
    | none => none
  | c :: t =>
    match reMatch 100 res (c :: t) [] with
    | some (gs, _) => some gs
    | none => reSearch res t

/-- Fueled worker for `reFindIter` (every source pattern consumes at least
one character, so the zero-width guard is never taken). -/
def reFindIterFuel (res : List RE) : Nat → List Char → List (List (List Char))
  | 0, _ => []
  | _, [] =>
    match reMatch 100 res [] [] with
    | some (gs, _) => [gs]
    | none => []
  | fuel + 1, c :: t =>
    match reMatch 100 res (c :: t) [] with
    | some (gs, rest) =>
      if rest.length < (c :: t).length then gs :: reFindIterFuel res fuel rest
      else gs :: reFindIterFuel res fuel t
    | none => reFindIterFuel res fuel t

/-- `re.finditer`: all non-overlapping matches, scanning left to right and
continuing after each match. -/
def reFindIter (res : List RE) (l : List Char) : List (List (List Char)) :=
  reFindIterFuel res l.length l

/-! ## `query_parser.py`: entity resolution -/

/-- `QueryParser.find_table_by_name`: exact lower-cased simple-name match
first, then two-way substring match, then any token of the hint as a
substring of a table name; first catalog hit wins, no match is `none`. -/
def find_table_by_name (analyzer : Option Analyzer) (table_hint : String) : Option String :=
  match analyzer with
  | none => none
  | some an =>
    let hint := pyStrip (pyLower table_hint)
    match alookup an.schema_info hint with
    | some full => some full
    | none =>
      match an.schema_info.find? (fun e =>
          strContains e.1 hint || strContains hint e.1) with
      | some e => some e.2
      | none =>
        (an.schema_info.find? (fun e =>
          (wordsBy Char.isWhitespace hint.data).any (fun w =>
            hasInfixL w e.1.data))).map (fun e => e.2)

/-- `QueryParser.find_columns_by_hint`: per hint, exact lower-cased match
first, else two-way substring match; unmatched hints contribute nothing. -/
def find_columns_by_hint (analyzer : Option Analyzer) (table_name : String)
    (column_hints : List String) : List String :=
  match analyzer with
  | none => []
  | some an =>
    match alookup an.table_columns table_name with
    | none => []
    | some columns =>
      column_hints.foldl (fun acc hint0 =>
        let hint := pyStrip (pyLower hint0)
        match columns.find? (fun col => hint == pyLower col.name) with
        | some col => acc ++ [col.name]
        | none =>
          match columns.find? (fun col =>
              strContains (pyLower col.name) hint ||
                strContains hint (pyLower col.name)) with
          | some col => acc ++ [col.name]
          | none => acc) []

/-! ## `query_parser.py`: condition extraction -/

/-- The six condition shapes of `QueryParser.parse_conditions`, in source
order, each paired with its formatter. -/
def conditionPatterns : List (List RE × (String → String → String)) :=
  [([RE.plus isWordChar true false, RE.star Char.isWhitespace, RE.lit ['='] true,
     RE.star Char.isWhitespace, RE.cls isQuoteChar,
     RE.plus (fun c => !isQuoteChar c) true false, RE.cls isQuoteChar],
    fun g1 g2 => g1 ++ " = '" ++ g2 ++ "'"),
   ([RE.plus isWordChar true false, RE.star Char.isWhitespace, RE.lit ['='] true,
     RE.star Char.isWhitespace, RE.plus Char.isDigit true false],
    fun g1 g2 => g1 ++ " = " ++ g2),
   ([RE.plus isWordChar true false, RE.star Char.isWhitespace, RE.lit ['>'] true,
     RE.star Char.isWhitespace, RE.plus Char.isDigit true false],
    fun g1 g2 => g1 ++ " > " ++ g2),
   ([RE.plus isWordChar true false, RE.star Char.isWhitespace, RE.lit ['<'] true,
     RE.star Char.isWhitespace, RE.plus Char.isDigit true false],
    fun g1 g2 => g1 ++ " < " ++ g2),
   ([RE.plus isWordChar true false, RE.star Char.isWhitespace, RE.lit "like".data true,
     RE.star Char.isWhitespace, RE.cls isQuoteChar,
     RE.plus (fun c => !isQuoteChar c) true false, RE.cls isQuoteChar],
    fun g1 g2 => g1 ++ " LIKE '%" ++ g2 ++ "%'"),
   ([RE.plus isWordChar true false, RE.star Char.isWhitespace, RE.lit "contains".data true,
     RE.star Char.isWhitespace, RE.cls isQuoteChar,
     RE.plus (fun c => !isQuoteChar c) true false, RE.cls isQuoteChar],
    fun g1 g2 => g1 ++ " LIKE '%" ++ g2 ++ "%'")]

/-- `QueryParser.parse_conditions`: guard on missing analyzer, falsy or
unknown table, then apply the six shapes via `finditer`, resolving each
captured left-hand token and substituting the resolved column name for
every occurrence of the hint in the formatted predicate. -/
def parse_conditions (analyzer : Option Analyzer) (condition_text : String)
    (table_name : Option String) : List String :=
  match analyzer, table_name with
  | some an, some tname =>
    if tname = "" then []
    else
      match alookup an.table_columns tname with
      | none => []
      | some _ =>
        conditionPatterns.foldl (fun conds pf =>
          (reFindIter pf.1 condition_text.data).foldl (fun conds gs =>
            let column_hint : String := ⟨gs.headD []⟩
            let value : String := ⟨(gs.drop 1).headD []⟩
            match find_columns_by_hint (some an) tname [column_hint] with
            | [] => conds
            | mc :: _ =>
              conds ++ [pyReplace (pf.2 column_hint value) column_hint mc]) conds) []
  | _, _ => []

/-! ## `query_parser.py`: the remaining extraction helpers -/

/-- The four table patterns of `_extract_table_from_query`, in order. -/
def tablePatterns : List (List RE) :=
  [[RE.lit "from".data false, RE.plus Char.isWhitespace false false,
    RE.plus isWordChar true false],
   [RE.lit "in".data false, RE.plus Char.isWhitespace false false,
    RE.plus isWordChar true false, RE.plus Char.isWhitespace false false,
    RE.lit "table".data false],
   [RE.plus isWordChar true false, RE.plus Char.isWhitespace false false,
    RE.lit "table".data false],
   [RE.lit "all".data false, RE.plus Char.isWhitespace false false,
    RE.plus isWordChar true false]]

/-- Pattern loop of `_extract_table_from_query`: a pattern that matches but
whose hint resolves to nothing does not stop the loop. -/
def extractTableLoop (analyzer : Option Analyzer) (q : List Char) :
    List (List RE) → Option String
  | [] => none
  | pat :: rest =>
    match reSearch pat q with
    | some gs =>
      match find_table_by_name analyzer ⟨gs.headD []⟩ with
      | some t => some t
      | none => extractTableLoop analyzer q rest
    | none => extractTableLoop analyzer q rest

/-- `QueryParser._extract_table_from_query`. -/
def extract_table_from_query (analyzer : Option Analyzer) (query : String)
    (context : QueryContext) : Option String :=
  match extractTableLoop analyzer query.data tablePatterns with
  | some t => some t
  | none =>
    match context.suggested_tables with
    | t :: _ => some t
    | [] =>
      (wordsBy Char.isWhitespace query.data).findSome? (fun w =>
        find_table_by_name analyzer ⟨w⟩)

/-- The class `[\w\s,]` of the column-text captures. -/
def colTextClass (c : Char) : Bool := isWordChar c || Char.isWhitespace c || c == ','

/-- The tail `(?:\s+from|\s+where|$)` of the column patterns. -/
def afterColAlt : RE :=
  RE.alt [[RE.plus Char.isWhitespace false false, RE.lit "from".data false],
          [RE.plus Char.isWhitespace false false, RE.lit "where".data false],
          [RE.eos]]

/-- The three column patterns of `_extract_columns_from_query`, in order. -/
def columnPatterns : List (List RE) :=
  [[RE.lit "show".data false, RE.plus Char.isWhitespace false false,
    RE.plus colTextClass true true, afterColAlt],
   [RE.lit "get".data false, RE.plus Char.isWhitespace false false,
    RE.plus colTextClass true true, afterColAlt],
   [RE.lit "select".data false, RE.plus Char.isWhitespace false false,
    RE.plus colTextClass true true, afterColAlt]]

/-- Pattern loop of `_extract_columns_from_query`: the first matching
pattern breaks the loop whatever happens next. -/
def extractColumnsLoop (analyzer : Option Analyzer) (q : List Char)
    (table_name : Option String) : List (List RE) → List String
  | [] => []
  | pat :: rest =>
    match reSearch pat q with
    | some gs =>
      let column_text := pyStrip ⟨gs.headD []⟩
      if column_text ∈ ["all", "*", "everything"] then []
      else
        let column_hints := (wordsBy (fun c => c == ',' || Char.isWhitespace c)
          column_text.data).map (fun w => (⟨w⟩ : String))
        match table_name with
        | some t => find_columns_by_hint analyzer t column_hints
        | none => []
    | none => extractColumnsLoop analyzer q table_name rest

/-- `QueryParser._extract_columns_from_query`. -/
def extract_columns_from_query (analyzer : Option Analyzer) (query : String)
    (table_name : Option String) : List String :=
  extractColumnsLoop analyzer query.data table_name columnPatterns

/-- The class `.` (anything but a newline). -/
def condTextClass (c : Char) : Bool := !(c == '\n')

/-- The tail `(?:\s+order|\s+group|\s+limit|$)` of the condition patterns. -/
def afterCondAlt : RE :=
  RE.alt [[RE.plus Char.isWhitespace false false, RE.lit "order".data false],
          [RE.plus Char.isWhitespace false false, RE.lit "group".data false],
          [RE.plus Char.isWhitespace false false, RE.lit "limit".data false],
          [RE.eos]]

/-- The three clause patterns of `_extract_conditions_from_query`. -/
def conditionClausePatterns : List (List RE) :=
  [[RE.lit "where".data false, RE.plus Char.isWhitespace false false,
    RE.plus condTextClass true true, afterCondAlt],
   [RE.lit "with".data false, RE.plus Char.isWhitespace false false,
    RE.plus condTextClass true true, afterCondAlt],
   [RE.lit "that".data false, RE.plus Char.isWhitespace false false,
    RE.plus condTextClass true true, afterCondAlt]]

/-- Pattern loop of `_extract_conditions_from_query`: the first matching
pattern returns `parse_conditions` on the captured text. -/
def extractConditionsLoop (analyzer : Option Analyzer) (q : List Char)
    (table_name : Option String) : List (List RE) → List String
  | [] => []
  | pat :: rest =>
    match reSearch pat q with
    | some gs => parse_conditions analyzer (pyStrip ⟨gs.headD []⟩) table_name
    | none => extractConditionsLoop analyzer q table_name rest

/-- `QueryParser._extract_conditions_from_query`. -/
def extract_conditions_from_query (analyzer : Option Analyzer) (query : String)
    (table_name : Option String) : List String :=
  extractConditionsLoop analyzer query.data table_name conditionClausePatterns

/-- The optional plural `s?` tail. -/
def optS : RE := RE.alt [[RE.lit "s".data false], []]

/-- The two limit patterns of `_extract_limit_from_query`, in order. -/
def limitPatterns : List (List RE) :=
  [[RE.alt [[RE.lit "top".data false], [RE.lit "first".data false],
            [RE.lit "limit".data false]],
    RE.plus Char.isWhitespace false false, RE.plus Char.isDigit true false],
   [RE.plus Char.isDigit true false, RE.plus Char.isWhitespace false false,
    RE.alt [[RE.lit "row".data false, optS], [RE.lit "record".data false, optS]]]]

/-- Pattern loop of `_extract_limit_from_query`. -/
def extractLimitLoop (q : List Char) : List (List RE) → Option Nat
  | [] => none
  | pat :: rest =>
    match reSearch pat q with
    | some gs => some (natOfDigits (gs.headD []))
    | none => extractLimitLoop q rest

/-- `QueryParser._extract_limit_from_query`. -/
def extract_limit_from_query (query : String) : Option Nat :=
  extractLimitLoop query.data limitPatterns

/-- The tail `(?:\s+limit|$)` of the order patterns. -/
def afterOrderAlt : RE :=
  RE.alt [[RE.plus Char.isWhitespace false false, RE.lit "limit".data false], [RE.eos]]

/-- The three order patterns of `_extract_order_by_from_query`, in order. -/
def orderPatterns : List (List RE) :=
  [[RE.lit "order".data false, RE.plus Char.isWhitespace false false,
    RE.lit "by".data false, RE.plus Char.isWhitespace false false,
    RE.plus colTextClass true true, afterOrderAlt],
   [RE.lit "sort".data false, RE.plus Char.isWhitespace false false,
    RE.lit "by".data false, RE.plus Char.isWhitespace false false,
    RE.plus colTextClass true true, afterOrderAlt],
   [RE.lit "ordered".data false, RE.plus Char.isWhitespace false false,
    RE.lit "by".data false, RE.plus Char.isWhitespace false false,
    RE.plus colTextClass true true, afterOrderAlt]]

/-- Pattern loop of `_extract_order_by_from_query`: the first matching
pattern breaks the loop whatever happens next. -/
def extractOrderLoop (analyzer : Option Analyzer) (query : String)
    (table_name : Option String) : List (List RE) → List (String × String)
  | [] => []
  | pat :: rest =>
    match reSearch pat query.data with
    | some gs =>
      let order_text := pyStrip ⟨gs.headD []⟩
      match table_name with
      | some t =>
        match find_columns_by_hint analyzer t [order_text] with
        | c :: _ =>
          [(c, if strContains query "desc" || strContains query "descending"
               then "DESC" else "ASC")]
        | [] => []
      | none => []
    | none => extractOrderLoop analyzer query table_name rest

/-- `QueryParser._extract_order_by_from_query`. -/
def extract_order_by_from_query (analyzer : Option Analyzer) (query : String)
    (table_name : Option String) : List (String × String) :=
  if ¬ (["order by", "sort by", "ordered by"].any (fun ph => strContains query ph)) then []
  else extractOrderLoop analyzer query table_name orderPatterns

/-! ## `query_parser.py`: the parsed query and the SQL assembler -/

/-- The dict built by `QueryParser.parse_natural_language`. -/
structure ParsedQuery where
  action : String
  table : Option String
  columns : List String
  conditions : List String
  limit : Option Nat
  order_by : List (String × String)
  group_by : List String
  aggregations : List String
  context : QueryContext
deriving DecidableEq, Repr

/-- Body of `parse_natural_language` applied to the already-normalized
query text. -/
def parseCore (analyzer : Option Analyzer) (query : String) : ParsedQuery :=
  let context := analyze_user_query_context analyzer query
  let aggregations :=
    if context.query_type = "aggregation" then
      if context.query_intent.contains "count_records" then ["COUNT"]
      else if context.query_intent.contains "calculate_average" then ["AVG"]
      else if context.query_intent.contains "sum_values" then ["SUM"]
      else []
    else []
  let table := extract_table_from_query analyzer query context
  { action := "SELECT",
    table := table,
    columns := extract_columns_from_query analyzer query table,
    conditions := extract_conditions_from_query analyzer query table,
    limit := extract_limit_from_query query,
    order_by := extract_order_by_from_query analyzer query table,
    group_by := [],
    aggregations := aggregations,
    context := context }

/-- `QueryParser.parse_natural_language`: lower-case and strip the request,
then run every extraction stage on the normalized text. -/
def parse_natural_language (analyzer : Option Analyzer) (query : String) : ParsedQuery :=
  parseCore analyzer (pyStrip (pyLower query))

/-- Python `'\n'.join`. -/
def joinLines (l : List String) : String := String.intercalate "\n" l

/-- The local `select_clause` of `build_sql_query` before the TOP step. -/
def buildSelectClause (parsed : ParsedQuery) : String :=
  if ¬ parsed.aggregations.isEmpty then
    if parsed.aggregations.contains "COUNT" then "SELECT COUNT(*)"
    else if ¬ parsed.columns.isEmpty then
      "SELECT " ++ parsed.aggregations.headD "" ++ "(" ++ parsed.columns.headD "" ++ ")"
    else "SELECT " ++ parsed.aggregations.headD "" ++ "(*)"
  else if ¬ parsed.columns.isEmpty then
    "SELECT " ++ String.intercalate ", " parsed.columns
  else "SELECT *"

/-- The `select_clause` after the TOP step (a positive limit with an
aggregation other than COUNT triggers Python's
`select_clause.replace('SELECT', f'SELECT TOP {limit}')`). -/
def buildSelectWithTop (parsed : ParsedQuery) : String :=
  match parsed.limit with
  | some n =>
    if n ≠ 0 ∧ ¬ parsed.aggregations.contains "COUNT" then
      pyReplace (buildSelectClause parsed) "SELECT" ("SELECT TOP " ++ toString n)
    else buildSelectClause parsed
  | none => buildSelectClause parsed

/-- The local `where_clause` of `build_sql_query`. -/
def buildWhereClause (parsed : ParsedQuery) : String :=
  if ¬ parsed.conditions.isEmpty then
    "WHERE " ++ String.intercalate " AND " parsed.conditions
  else ""

/-- The local `order_clause` of `build_sql_query`. -/
def buildOrderClause (parsed : ParsedQuery) : String :=
  if ¬ parsed.order_by.isEmpty then
    "ORDER BY " ++ String.intercalate ", "
      (parsed.order_by.map (fun cd => cd.1 ++ " " ++ cd.2))
  else ""

/-- `QueryParser.build_sql_query`. -/
def build_sql_query (parsed : ParsedQuery) : String :=
  match parsed.table with
  | none => "-- Error: No table identified in the query"
  | some tbl =>
    joinLines ([buildSelectWithTop parsed, "FROM " ++ tbl]
      ++ (if ¬ buildWhereClause parsed = "" then [buildWhereClause parsed] else [])
      ++ (if ¬ buildOrderClause parsed = "" then [buildOrderClause parsed] else []))

/-- What follows the `SELECT` keyword, per claim C8's case order:
`COUNT(*)` if the aggregation is COUNT, else `AGG(column)` when an
aggregation and a resolved column exist, else `AGG(*)` when an aggregation
exists with no column, else the comma-joined resolved columns, else `*`. -/
def selectRestSpec (p : ParsedQuery) : String :=
  if p.aggregations.contains "COUNT" then " COUNT(*)"
  else if ¬ p.aggregations.isEmpty ∧ ¬ p.columns.isEmpty then
    " " ++ p.aggregations.headD "" ++ "(" ++ p.columns.headD "" ++ ")"
  else if ¬ p.aggregations.isEmpty then
    " " ++ p.aggregations.headD "" ++ "(*)"
  else if ¬ p.columns.isEmpty then
    " " ++ String.intercalate ", " p.columns
  else " *"

/-- The SELECT clause per claim C8. -/
def selectClauseSpec (p : ParsedQuery) : String := "SELECT" ++ selectRestSpec p

/-- The SELECT clause with the leading TOP-N modifier inserted when a
positive limit is present and the aggregation is not COUNT — the
row-limiting step as originally claimed. -/
def topSelectSpec (p : ParsedQuery) : String :=
  match p.limit with
  | some n =>
    if n ≠ 0 ∧ ¬ p.aggregations.contains "COUNT" then
      "SELECT TOP " ++ toString n ++ selectRestSpec p
    else selectClauseSpec p
  | none => selectClauseSpec p

/-- The SELECT clause after the row-limiting step as the code performs it
and the amended claim C8 describes it: when a positive limit is present and
the aggregation is not COUNT, every occurrence of the substring `SELECT` in
the clause is textually replaced by `SELECT TOP n`. -/
def topReplaceSpec (p : ParsedQuery) : String :=
  match p.limit with
  | some n =>
    if n ≠ 0 ∧ ¬ p.aggregations.contains "COUNT" then
      pyReplace (selectClauseSpec p) "SELECT" ("SELECT TOP " ++ toString n)
    else selectClauseSpec p
  | none => selectClauseSpec p

/-- The text between the first pair of single quotes of a predicate. -/
def quotedValue (s : String) : String := ⟨((splitOnChar '\'' s.data).drop 1).headD []⟩

/-- Catalog for the C10 counterexample: one table `dbo.users` whose single
column is named `Name` (catalog casing differs from its lower-casing). -/
def cexAnalyzer : Analyzer :=
  { emptyAnalyzer "srv" "db" with
    schema_info := [("users", "dbo.users")],
    table_columns := [("dbo.users", [⟨"Name", "varchar", true, 1⟩])],
    filtered_tables := [("dbo.users", ⟨1000, 1, [⟨"Name", "varchar", true, 1⟩]⟩)] }

/-- The column list of the C1 fixture. -/
def c1Columns : List Column := [⟨"c1", "int", false, 1⟩]

/-- Fixture for C1: a catalog with one retained table `dbo.t` of 1 row whose
column statistics were not profiled (so its exported score is 0.5). -/
def c1Analyzer : Analyzer :=
  { emptyAnalyzer "srv" "db" with
    schema_info := [("t", "dbo.t")],
    table_columns := [("dbo.t", c1Columns)],
    table_stats := [("dbo.t", ⟨1, 1, [], [], "ts"⟩)],
    filtered_tables := [("dbo.t", ⟨1, 1, c1Columns⟩)] }

/-- The metadata snapshot exported from the C1 fixture. -/
def c1Snapshot : Metadata :=
  (export_database_metadata (some c1Analyzer) "t0").getD ⟨⟨"", "", "", 0, 0⟩, []⟩

/-- The fresh catalog reconstructed from the C1 snapshot. -/
def c1Reloaded : Analyzer := load_metadata_from_json (emptyAnalyzer "srv" "db") c1Snapshot

/-- Fixture for C2: the schema rows of a single table `dbo.empty`. -/
def c2Rows : List SchemaRow := [⟨"dbo", "empty", "c1", "int", "YES", 1⟩]

/-- Fixture for C2: the catalog built from `c2Rows` when every row count is 0,
so the table is dropped. -/
def c2Result : Analyzer :=
  load_and_filter_schema (fun _ => some 0) (fun _ => []) (fun _ _ => []) "t0"
    (emptyAnalyzer "srv" "db") c2Rows 1

/-- Concrete parsed query for the C8 witness. -/
def c8WitnessParsed : ParsedQuery :=
  { action := "SELECT", table := some "dbo.users", columns := ["a", "b"],
    conditions := ["a > 1"], limit := some 5, order_by := [("a", "ASC")],
    group_by := [], aggregations := [],
    context := ⟨"retrieval", "simple", [], [], ["retrieve_data"], []⟩ }

/-- Fixture for the C8 counterexample: a resolved table, the single resolved
column `SELECTED_COUNT` (a catalog column name containing `SELECT`), a limit
of 5 and no aggregation. -/
def c8CexParsed : ParsedQuery :=
  { action := "SELECT", table := some "dbo.users", columns := ["SELECTED_COUNT"],
    conditions := [], limit := some 5, order_by := [], group_by := [],
    aggregations := [],
    context := ⟨"retrieval", "simple", [], [], ["retrieve_data"], []⟩ }

/-! ## Helper lemmas -/

theorem assoc_nodup_mem_eq {α : Type} {l : List (String × α)}
    (hnd : (l.map (fun e => e.1)).Nodup) {k : String} {v w : α}
    (h1 : (k, v) ∈ l) (h2 : (k, w) ∈ l) : v = w := by
  induction l with
  | nil => cases h1
  | cons e t ih =>
    simp only [List.map_cons, List.nodup_cons] at hnd
    rcases List.mem_cons.mp h1 with h1 | h1 <;> rcases List.mem_cons.mp h2 with h2 | h2
    · rw [← h2] at h1; exact congrArg Prod.snd h1
    · exfalso
      apply hnd.1
      have hm : (k : String) ∈ t.map (fun e => e.1) :=
        List.mem_map_of_mem (fun e => e.1) h2
      rw [← h1]
      exact hm
    · exfalso
      apply hnd.1
      have hm : (k : String) ∈ t.map (fun e => e.1) :=
        List.mem_map_of_mem (fun e => e.1) h1
      rw [← h2]
      exact hm
    · exact ih hnd.2 h1 h2

/-! ## Claim theorems -/

/-- Claim C3: query-type classification is first-match-wins over the five
keyword groups in their fixed priority order; the assigned
`query_type`/`query_intent` pair equals that of the earliest group with a
keyword contained in the lower-cased text, a text containing `"total number"`
(even together with `"sum"`) classifies as `aggregation`/`count_records`, and
a text matching no group yields `unknown`. -/
theorem query_type_first_match_wins :
    (∀ a q, ((analyze_user_query_context a q).query_type,
             (analyze_user_query_context a q).query_intent) = classifySpec (pyLower q))
    ∧ (analyze_user_query_context none "Total number and sum").query_type = "aggregation"
    ∧ (analyze_user_query_context none "Total number and sum").query_intent
        = ["count_records"]
    ∧ (analyze_user_query_context none "xyzzy").query_type = "unknown" := by
  refine ⟨fun a q => ?_, by decide, by decide, by decide⟩
  by_cases h1 : (["count", "how many", "total number"].any
      (fun w => strContains (pyLower q) w)) = true <;>
  by_cases h2 : (["average", "mean", "avg"].any
      (fun w => strContains (pyLower q) w)) = true <;>
  by_cases h3 : (["sum", "total"].any
      (fun w => strContains (pyLower q) w)) = true <;>
  by_cases h4 : (["show", "list", "display", "get"].any
      (fun w => strContains (pyLower q) w)) = true <;>
  by_cases h5 : (["find", "search", "where"].any
      (fun w => strContains (pyLower q) w)) = true <;>
  simp [analyze_user_query_context, classifySpec, keywordGroups, List.find?, h1, h2, h3, h4, h5]

/-- Claim C4 counterexample: the code counts complexity indicators by
substring containment, so `"show android phones"` (whose token set contains
none of the indicator words, as the second conjunct certifies) is classified
`moderate`, not `simple` as the claim states. -/
theorem complexity_token_counterexample :
    (analyze_user_query_context none "show android phones").complexity = "moderate"
    ∧ complexityTokenSpec (pyLower "show android phones") = "simple"
    ∧ complexityWords.countP (fun w =>
        ((wordsBy Char.isWhitespace (pyLower "show android phones").data).map
          (fun t => (⟨t⟩ : String))).contains w) = 0 := by
  exact ⟨by decide, by decide, by decide⟩

/-- Claim C4 (amended): the complexity level is determined by the number of
distinct indicator words among
`{where, and, or, join, group, order, having}` occurring as substrings of
the lower-cased text (not as whitespace tokens): at least 3 yields
`complex`, at least 1 yields `moderate`, otherwise `simple`. -/
theorem complexity_substring_rule :
    ∀ a q, (analyze_user_query_context a q).complexity = complexitySpec (pyLower q) := by
  intro a q
  simp [analyze_user_query_context, complexitySpec, List.countP_eq_length_filter]


/-- Claim C5: for a retained table with a non-empty column-statistics map the
quality score is the arithmetic mean, rounded to 3 decimals, of the spec's
per-column score `0.5*null + 0.3*uniqueness + 0.2*presence`; a table with an
empty column-statistics map scores exactly 0.5. -/
theorem quality_score_characterization :
    ∀ a key ts, alookup a.table_stats key = some ts →
      (ts.column_analysis = [] → calculate_data_quality_score (some a) key = 0.5)
      ∧ (ts.column_analysis ≠ [] →
          calculate_data_quality_score (some a) key =
            round3 ((ts.column_analysis.map (fun e => specColScore e.2)).sum /
              (ts.column_analysis.length : ℚ))) := by
  intro a key ts h
  refine ⟨fun hemp => ?_, fun hne => ?_⟩
  · simp [calculate_data_quality_score, h, hemp]
  · have hmap : (ts.column_analysis.map (fun e =>
        max 0 ((100 - e.2.null_percentage) / 100) * 0.5 +
          min 1 e.2.uniqueness_r * 0.3 +
          (if 0 < e.2.non_null_count then (1 : ℚ) else 0) * 0.2)) =
        ts.column_analysis.map (fun e => specColScore e.2) :=
      List.map_congr_left (fun e _ => by unfold specColScore; ring)
    simp only [calculate_data_quality_score, h, List.isEmpty_iff, hne, if_false, hmap,
      List.length_map]
    simp [hne]

/-- Witness for C5: a table with no profiled columns scores 0.5. -/
theorem quality_score_characterization_witness :
    calculate_data_quality_score (some c5WitnessAnalyzer) "dbo.t" = 0.5 :=
  (quality_score_characterization c5WitnessAnalyzer "dbo.t"
    ⟨1, 1, [], [], "ts"⟩ rfl).1 rfl

/-- Claim C6: a profiled column is a primary-key candidate iff
`uniqueness_ratio ≥ 0.95`, `null_percentage < 5` and its lower-cased type is
one of `int`, `bigint`, `uniqueidentifier`, `varchar`, `nvarchar` (the
second conjunct certifies that the comparison constant `q095` is 0.95); in
particular an allowed-type column with uniqueness 0.9499 is excluded and one
with uniqueness 0.95 and null percentage 4.99 is included. -/
theorem pk_candidate_iff :
    (∀ an key ts name stats,
      alookup an.table_stats key = some ts →
      (ts.column_analysis.map (fun e => e.1)).Nodup →
      (name, stats) ∈ ts.column_analysis →
      (name ∈ identify_primary_key_candidates (some an) key ↔
        (q095 ≤ stats.uniqueness_r ∧ stats.null_percentage < 5 ∧
          pyLower stats.ctype ∈ ["int", "bigint", "uniqueidentifier", "varchar", "nvarchar"])))
    ∧ q095 = 0.95
    ∧ identify_primary_key_candidates (some pkBoundaryAnalyzerA) "dbo.t" = []
    ∧ identify_primary_key_candidates (some pkBoundaryAnalyzerB) "dbo.t" = ["c"] := by
  refine ⟨fun an key ts name stats h hnd hmem => ?_, ?_, by decide, by decide⟩
  · simp only [identify_primary_key_candidates, h, List.mem_map, List.mem_filter,
      decide_eq_true_eq]
    constructor
    · rintro ⟨e, ⟨hin, hp⟩, hname⟩
      rcases e with ⟨n, s⟩
      simp only at hname
      subst hname
      have hs : s = stats := assoc_nodup_mem_eq hnd hin hmem
      subst hs
      exact hp
    · intro hp
      exact ⟨(name, stats), ⟨hmem, hp⟩, rfl⟩
  · rw [show (0.95 : ℚ) = 19 / 20 by norm_num, ← Rat.num_div_den q095]
    norm_num [q095]

/-- Witness for C6: the boundary column with uniqueness 0.95 and null
percentage 4.99 is reported as a primary-key candidate. -/
theorem pk_candidate_iff_witness :
    "c" ∈ identify_primary_key_candidates (some pkBoundaryAnalyzerB) "dbo.t" :=
  (pk_candidate_iff.1 pkBoundaryAnalyzerB "dbo.t"
    ⟨10000, 1, [], [("c", pkBoundaryStatsB)], "ts"⟩ "c" pkBoundaryStatsB
    rfl (by decide) (by decide)).mpr (by decide)

/-- Claim C7 counterexample: for the `int` column `video_id` and catalog
table `dbo.video`, the claim's suffix-stripped stem is `"video"`, which is
contained in the table's simple name, so the claim predicts a foreign-key
entry; but the code derives the stem by removing every occurrence of
`"_id"` and then of `"id"`, obtaining `"veo"`, matches no table, and emits
no entry at all. -/
theorem fk_stem_counterexample :
    identify_foreign_key_candidates (some fkVideoAnalyzer) "dbo.video" = []
    ∧ suffixStem "video_id" = "video"
    ∧ strContains (lastComp (pyLower "dbo.video")) (suffixStem "video_id") = true
    ∧ fkStem "video_id" = "veo" := by
  exact ⟨by decide, by decide, by decide, by decide⟩

/-- Claim C7 (amended): a profiled column yields a foreign-key entry iff its
lower-cased type is `int` or `bigint`, its name ends (case-insensitively)
with `"id"`, the lower-cased name is not exactly `"id"` or `"rowid"`, and at
least one catalog table's lower-cased simple name contains the code's stem —
obtained by deleting every occurrence of `"_id"` and then every occurrence
of `"id"` from the lower-cased name, which agrees with suffix-stripping only
when `"id"` occurs nowhere else in the name; the entry then lists the first
3 matching table keys in catalog iteration order. -/
theorem fk_candidate_characterization :
    ∀ an key ts name stats,
      alookup an.table_stats key = some ts →
      (ts.column_analysis.map (fun e => e.1)).Nodup →
      (name, stats) ∈ ts.column_analysis →
      ((∃ e ∈ identify_foreign_key_candidates (some an) key, e.column = name) ↔
        (pyLower stats.ctype ∈ ["int", "bigint"] ∧ pyEndsWith (pyLower name) "id" = true ∧
         ¬ pyLower name ∈ ["id", "rowid"] ∧ fkMatches an name ≠ []))
      ∧ (∀ e ∈ identify_foreign_key_candidates (some an) key, e.column = name →
          e.potential_refs = (fkMatches an name).take 3) := by
  intro an key ts name stats h hnd hmem
  simp only [identify_foreign_key_candidates, h]
  constructor
  · constructor
    · rintro ⟨e, he, hcol⟩
      rw [List.mem_filterMap] at he
      rcases he with ⟨⟨n, s⟩, hin, hf⟩
      simp only at hf
      by_cases hc : pyLower s.ctype ∈ ["int", "bigint"] ∧ pyEndsWith (pyLower n) "id" = true ∧
          ¬ pyLower n ∈ ["id", "rowid"]
      · rw [if_pos hc] at hf
        by_cases hm : (fkMatches an n).isEmpty
        · rw [if_pos hm] at hf; cases hf
        · rw [if_neg hm] at hf
          have hfe := Option.some.inj hf
          have hcoln : n = name := by
            have hco := congrArg FKCandidate.column hfe
            simp only at hco
            rw [hco, hcol]
          subst hcoln
          have hs : s = stats := assoc_nodup_mem_eq hnd hin hmem
          subst hs
          refine ⟨hc.1, hc.2.1, hc.2.2, ?_⟩
          simpa [List.isEmpty_iff] using hm
      · rw [if_neg hc] at hf
        cases hf
    · rintro ⟨h1, h2, h3, h4⟩
      refine ⟨⟨name, (fkMatches an name).take 3⟩, ?_, rfl⟩
      rw [List.mem_filterMap]
      refine ⟨(name, stats), hmem, ?_⟩
      simp only
      rw [if_pos ⟨h1, h2, h3⟩, if_neg (by simpa [List.isEmpty_iff] using h4)]
  · rintro e he hcol
    rw [List.mem_filterMap] at he
    rcases he with ⟨⟨n, s⟩, hin, hf⟩
    simp only at hf
    by_cases hc : pyLower s.ctype ∈ ["int", "bigint"] ∧ pyEndsWith (pyLower n) "id" = true ∧
        ¬ pyLower n ∈ ["id", "rowid"]
    · rw [if_pos hc] at hf
      by_cases hm : (fkMatches an n).isEmpty
      · rw [if_pos hm] at hf; cases hf
      · rw [if_neg hm] at hf
        have hfe := Option.some.inj hf
        have hcoln : n = name := by
          have hco := congrArg FKCandidate.column hfe
          simp only at hco
          rw [hco, hcol]
        subst hcoln
        have hrefs := congrArg FKCandidate.potential_refs hfe
        simp only at hrefs
        rw [← hrefs]
    · rw [if_neg hc] at hf
      cases hf

/-- Witness for C7: column `user_id` of table `dbo.user` produces an entry. -/
theorem fk_candidate_characterization_witness :
    ∃ e ∈ identify_foreign_key_candidates (some fkUserAnalyzer) "dbo.user",
      e.column = "user_id" :=
  ((fk_candidate_characterization fkUserAnalyzer "dbo.user"
    ⟨100, 1, [], [("user_id", fkIntStats)], "ts"⟩ "user_id" fkIntStats
    rfl (by decide) (by decide)).1).mpr (by decide)

theorem char_ofNat_toNat_valid {n : Nat} (h : n.isValidChar) :
    (Char.ofNat n).toNat = n := by
  rw [Char.ofNat, dif_pos h]
  rfl

theorem toLower_toLower (c : Char) : c.toLower.toLower = c.toLower := by
  by_cases h : c.toNat ≥ 65 ∧ c.toNat ≤ 90
  · have h1 : c.toLower = Char.ofNat (c.toNat + 32) := by
      simp only [Char.toLower]
      rw [if_pos h]
    have h2 : (Char.ofNat (c.toNat + 32)).toNat = c.toNat + 32 :=
      char_ofNat_toNat_valid (Or.inl (by omega))
    rw [h1]
    simp only [Char.toLower]
    rw [if_neg (by rw [h2]; omega)]
  · have h1 : c.toLower = c := by
      simp only [Char.toLower]
      rw [if_neg h]
    rw [h1, h1]

theorem pyLower_idem (s : String) : pyLower (pyLower s) = pyLower s := by
  simp only [pyLower]
  congr 1
  rw [List.map_map]
  exact List.map_congr_left (fun c _ => toLower_toLower c)

theorem dropWhile_dropWhile (p : α → Bool) (l : List α) :
    (l.dropWhile p).dropWhile p = l.dropWhile p := by
  induction l with
  | nil => rfl
  | cons c t ih =>
    by_cases h : p c
    · simp [List.dropWhile_cons, h, ih]
    · simp [List.dropWhile_cons, h]

theorem dropWhile_head_false {p : α → Bool} {l : List α} {c : α} {t : List α}
    (h : l.dropWhile p = c :: t) : p c = false := by
  induction l with
  | nil => cases h
  | cons a s ih =>
    by_cases ha : p a
    · rw [List.dropWhile_cons, if_pos ha] at h
      exact ih h
    · rw [List.dropWhile_cons, if_neg ha] at h
      injection h with h1 _
      subst h1
      simpa using ha

theorem dropWhile_of_head_false {p : α → Bool} {c : α} {t : List α} (h : p c = false) :
    (c :: t).dropWhile p = c :: t := by
  simp [List.dropWhile_cons, h]

theorem pyStripL_idem (l : List Char) : pyStripL (pyStripL l) = pyStripL l := by
  unfold pyStripL
  have hdv : ((l.dropWhile Char.isWhitespace).reverse.dropWhile
      Char.isWhitespace).reverse.dropWhile Char.isWhitespace =
      ((l.dropWhile Char.isWhitespace).reverse.dropWhile Char.isWhitespace).reverse := by
    have hpre : ((l.dropWhile Char.isWhitespace).reverse.dropWhile
        Char.isWhitespace).reverse <+: l.dropWhile Char.isWhitespace := by
      have hsuf := List.dropWhile_suffix (l := (l.dropWhile Char.isWhitespace).reverse)
        Char.isWhitespace
      have := List.reverse_prefix.mpr hsuf
      rwa [List.reverse_reverse] at this
    obtain ⟨w, hw⟩ := hpre
    cases hvr : ((l.dropWhile Char.isWhitespace).reverse.dropWhile
        Char.isWhitespace).reverse with
    | nil => simp
    | cons c t =>
      apply dropWhile_of_head_false
      apply dropWhile_head_false (l := l) (t := t ++ w)
      rw [← hw, hvr]
      rfl
  rw [hdv, List.reverse_reverse, dropWhile_dropWhile]

theorem mem_of_mem_pyStripL {c : Char} {l : List Char} (h : c ∈ pyStripL l) : c ∈ l := by
  unfold pyStripL at h
  rw [List.mem_reverse] at h
  have h2 := (List.dropWhile_sublist (l := (l.dropWhile Char.isWhitespace).reverse)
    Char.isWhitespace).subset h
  rw [List.mem_reverse] at h2
  exact (List.dropWhile_sublist (l := l) Char.isWhitespace).subset h2

theorem norm_idem (q : String) :
    pyStrip (pyLower (pyStrip (pyLower q))) = pyStrip (pyLower q) := by
  have h1 : pyLower (pyStrip (pyLower q)) = pyStrip (pyLower q) := by
    simp only [pyLower, pyStrip]
    congr 1
    have : ∀ c ∈ pyStripL (q.data.map Char.toLower), c.toLower = c := by
      intro c hc
      obtain ⟨d, _, rfl⟩ := List.mem_map.mp (mem_of_mem_pyStripL hc)
      exact toLower_toLower d
    rw [List.map_congr_left this]
    exact List.map_id _
  rw [h1]
  simp only [pyStrip]
  congr 1
  exact pyStripL_idem _

theorem str_data_append (a b : String) : (a ++ b).data = a.data ++ b.data := rfl

theorem replaceAllFuel_congr (pat rep : List Char) :
    ∀ f1 f2 (l : List Char), l.length ≤ f1 → l.length ≤ f2 →
      replaceAllFuel pat rep f1 l = replaceAllFuel pat rep f2 l := by
  intro f1
  induction f1 with
  | zero =>
    intro f2 l h1 _
    have : l = [] := List.eq_nil_of_length_eq_zero (Nat.le_zero.mp h1)
    subst this
    cases f2 <;> rfl
  | succ f1 ih =>
    intro f2 l h1 h2
    cases l with
    | nil => cases f2 <;> rfl
    | cons c t =>
      cases f2 with
      | zero => simp at h2
      | succ f2 =>
        simp only [replaceAllFuel]
        by_cases hc : pat ≠ [] ∧ pat.isPrefixOf (c :: t)
        · rw [if_pos hc, if_pos hc]
          congr 1
          apply ih
          · rcases pat with _ | ⟨p, ps⟩
            · exact absurd rfl hc.1
            · simp only [List.length_drop, List.length_cons] at *
              omega
          · rcases pat with _ | ⟨p, ps⟩
            · exact absurd rfl hc.1
            · simp only [List.length_drop, List.length_cons] at *
              omega
        · rw [if_neg hc, if_neg hc]
          congr 1
          apply ih
          · simp only [List.length_cons] at h1
            omega
          · simp only [List.length_cons] at h2
            omega

theorem replaceAllL_head_occurrence (pat rep l : List Char) (hne : pat ≠ []) :
    replaceAllL pat rep (pat ++ l) = rep ++ replaceAllL pat rep l := by
  rcases pat with _ | ⟨p, ps⟩
  · exact absurd rfl hne
  · show replaceAllFuel (p :: ps) rep ((p :: ps) ++ l).length ((p :: ps) ++ l) = _
    have hlen : ((p :: ps) ++ l).length = (ps ++ l).length + 1 := by simp
    rw [hlen]
    simp only [List.cons_append, replaceAllFuel]
    rw [if_pos ⟨hne, by
      rw [List.isPrefixOf_iff_prefix]
      exact ⟨l, by simp⟩⟩]
    congr 1
    simp only [List.append_eq]
    have hdrop : (p :: (ps ++ l)).drop (p :: ps).length = l := by
      rw [show p :: (ps ++ l) = (p :: ps) ++ l by simp]
      exact List.drop_left _ _
    rw [hdrop]
    apply replaceAllFuel_congr
    · simp
    · exact Nat.le_refl _

theorem replaceAllFuel_no_occurrence (pat rep : List Char) :
    ∀ fuel (l : List Char), hasInfixL pat l = false →
      replaceAllFuel pat rep fuel l = l := by
  intro fuel
  induction fuel with
  | zero => intro l _; cases l <;> rfl
  | succ fuel ih =>
    intro l h
    cases l with
    | nil => rfl
    | cons c t =>
      simp only [hasInfixL, Bool.or_eq_false_iff] at h
      simp only [replaceAllFuel]
      rw [if_neg (fun hc => by simp [h.1] at hc)]
      rw [ih t h.2]

theorem replaceAllL_no_occurrence (pat rep l : List Char)
    (h : hasInfixL pat l = false) : replaceAllL pat rep l = l :=
  replaceAllFuel_no_occurrence pat rep l.length l h

theorem pyReplace_select_prefix (r rep : String)
    (h : strContains r "SELECT" = false) :
    pyReplace ("SELECT" ++ r) "SELECT" rep = rep ++ r := by
  simp only [pyReplace, str_data_append]
  congr 1
  rw [replaceAllL_head_occurrence _ _ _ (by decide)]
  rw [replaceAllL_no_occurrence _ _ _ h]

theorem string_data_ext {a b : String} (h : a.data = b.data) : a = b :=
  congrArg String.mk h

theorem buildSelectClause_decomp (p : ParsedQuery) :
    buildSelectClause p = "SELECT" ++ selectRestSpec p := by
  unfold buildSelectClause selectRestSpec
  by_cases h1 : p.aggregations.isEmpty
  · have hc : p.aggregations.contains "COUNT" = false := by
      rw [List.isEmpty_iff] at h1
      rw [h1]
      rfl
    by_cases h3 : p.columns.isEmpty <;>
      simp only [h1, hc, h3, not_true, not_false_iff, if_true, if_false,
        Bool.false_eq_true, false_and, and_false] <;>
      rfl
  · by_cases h2 : p.aggregations.contains "COUNT"
    · simp only [h1, h2, not_false_iff, if_true, if_false]
      rfl
    · by_cases h3 : p.columns.isEmpty <;>
        simp only [h1, h2, h3, not_true, not_false_iff, if_true, if_false,
          Bool.false_eq_true, true_and, and_true, false_and, and_false] <;>
        rfl

theorem append_ne_empty_of_left {a x : String} (h : a.data ≠ []) : ¬ (a ++ x) = "" := by
  intro he
  have hd := congrArg String.data he
  rw [str_data_append] at hd
  exact h (List.append_eq_nil.mp hd).1

theorem whereClause_if_eq (p : ParsedQuery) :
    (if ¬ buildWhereClause p = "" then [buildWhereClause p] else [])
      = (if p.conditions.isEmpty then []
         else ["WHERE " ++ String.intercalate " AND " p.conditions]) := by
  by_cases hc : p.conditions.isEmpty
  · have h1 : buildWhereClause p = "" := by simp [buildWhereClause, hc]
    simp [h1, hc]
  · have h1 : buildWhereClause p
        = "WHERE " ++ String.intercalate " AND " p.conditions := by
      simp [buildWhereClause, hc]
    rw [h1, if_pos (append_ne_empty_of_left (a := "WHERE ") (by decide)), if_neg hc]

theorem orderClause_if_eq (p : ParsedQuery) :
    (if ¬ buildOrderClause p = "" then [buildOrderClause p] else [])
      = (if p.order_by.isEmpty then []
         else ["ORDER BY " ++ String.intercalate ", "
           (p.order_by.map (fun cd => cd.1 ++ " " ++ cd.2))]) := by
  by_cases ho : p.order_by.isEmpty
  · have h1 : buildOrderClause p = "" := by simp [buildOrderClause, ho]
    simp [h1, ho]
  · have h1 : buildOrderClause p = "ORDER BY " ++ String.intercalate ", "
        (p.order_by.map (fun cd => cd.1 ++ " " ++ cd.2)) := by
      simp [buildOrderClause, ho]
    rw [h1, if_pos (append_ne_empty_of_left (a := "ORDER BY ") (by decide)), if_neg ho]

theorem buildSelectWithTop_eq_replace (p : ParsedQuery) :
    buildSelectWithTop p = topReplaceSpec p := by
  have hbs : buildSelectClause p = selectClauseSpec p := buildSelectClause_decomp p
  cases hl : p.limit with
  | none => simp only [buildSelectWithTop, topReplaceSpec, hl, hbs]
  | some n =>
    by_cases hpos : n ≠ 0 ∧ ¬ p.aggregations.contains "COUNT"
    · simp only [buildSelectWithTop, topReplaceSpec, hl, if_pos hpos, hbs]
    · simp only [buildSelectWithTop, topReplaceSpec, hl, if_neg hpos, hbs]

/-- Claim C8 counterexample: for the resolved column `SELECTED_COUNT` with
limit 5 and no aggregation, the SELECT clause is `SELECT SELECTED_COUNT`
and the claim's leading TOP-N insertion predicts
`SELECT TOP 5 SELECTED_COUNT`; but the code applies TOP via
`select_clause.replace('SELECT', 'SELECT TOP 5')`, which also rewrites the
`SELECT` inside the column name, so the emitted SQL is the garbled
`SELECT TOP 5 SELECT TOP 5ED_COUNT` and differs from the claim's output. -/
theorem top_replace_counterexample :
    selectClauseSpec c8CexParsed = "SELECT SELECTED_COUNT"
    ∧ topSelectSpec c8CexParsed = "SELECT TOP 5 SELECTED_COUNT"
    ∧ build_sql_query c8CexParsed = "SELECT TOP 5 SELECT TOP 5ED_COUNT\nFROM dbo.users"
    ∧ build_sql_query c8CexParsed
        ≠ joinLines [topSelectSpec c8CexParsed, "FROM " ++ "dbo.users"] := by
  exact ⟨by decide, by decide, by decide, by decide⟩

/-- Claim C8 (amended): for every ParsedQuery with a resolved table, the
SELECT clause follows the claim's five cases (COUNT(*) / AGG(column) /
AGG(*) / comma-joined columns / *), the clauses are emitted in the fixed
order SELECT, FROM, WHERE, ORDER BY, one per line, with WHERE and ORDER BY
omitted when empty, and when a positive limit is present and the
aggregation is not COUNT the TOP-N modifier is applied by textually
replacing every occurrence of the substring `SELECT` in the SELECT clause
with `SELECT TOP n` (first conjunct); this coincides with inserting the
leading TOP-N modifier exactly when the clause body after the leading
`SELECT` contains no further occurrence of `SELECT` — in particular
whenever no resolved column or aggregation name contains `SELECT` (second
conjunct). -/
theorem sql_assembler_characterization :
    (∀ p tbl, p.table = some tbl →
      build_sql_query p =
        joinLines ([topReplaceSpec p, "FROM " ++ tbl]
          ++ (if p.conditions.isEmpty then []
              else ["WHERE " ++ String.intercalate " AND " p.conditions])
          ++ (if p.order_by.isEmpty then []
              else ["ORDER BY " ++ String.intercalate ", "
                (p.order_by.map (fun cd => cd.1 ++ " " ++ cd.2))])))
    ∧ (∀ p tbl, p.table = some tbl →
        strContains (selectRestSpec p) "SELECT" = false →
        build_sql_query p =
          joinLines ([topSelectSpec p, "FROM " ++ tbl]
            ++ (if p.conditions.isEmpty then []
                else ["WHERE " ++ String.intercalate " AND " p.conditions])
            ++ (if p.order_by.isEmpty then []
                else ["ORDER BY " ++ String.intercalate ", "
                  (p.order_by.map (fun cd => cd.1 ++ " " ++ cd.2))]))) := by
  constructor
  · intro p tbl ht
    simp only [build_sql_query, ht, buildSelectWithTop_eq_replace,
      whereClause_if_eq, orderClause_if_eq]
  · intro p tbl ht hsel
    have htop : buildSelectWithTop p = topSelectSpec p := by
      rw [buildSelectWithTop_eq_replace]
      cases hl : p.limit with
      | none => simp only [topReplaceSpec, topSelectSpec, hl]
      | some n =>
        by_cases hpos : n ≠ 0 ∧ ¬ p.aggregations.contains "COUNT"
        · simp only [topReplaceSpec, topSelectSpec, hl, if_pos hpos, selectClauseSpec]
          exact pyReplace_select_prefix _ _ hsel
        · simp only [topReplaceSpec, topSelectSpec, hl, if_neg hpos]
    simp only [build_sql_query, ht, htop, whereClause_if_eq, orderClause_if_eq]

/-- Witness for C8: a concrete parsed query with columns, a condition, a
limit of 5 and one order pair assembles, by both conjuncts, to the expected
four-line SQL with the leading TOP-5 modifier. -/
theorem sql_assembler_characterization_witness :
    build_sql_query c8WitnessParsed =
      joinLines ([topReplaceSpec c8WitnessParsed, "FROM " ++ "dbo.users"]
        ++ (if c8WitnessParsed.conditions.isEmpty then []
            else ["WHERE " ++ String.intercalate " AND " c8WitnessParsed.conditions])
        ++ (if c8WitnessParsed.order_by.isEmpty then []
            else ["ORDER BY " ++ String.intercalate ", "
              (c8WitnessParsed.order_by.map (fun cd => cd.1 ++ " " ++ cd.2))]))
    ∧ strContains (selectRestSpec c8WitnessParsed) "SELECT" = false
    ∧ build_sql_query c8WitnessParsed =
        joinLines ([topSelectSpec c8WitnessParsed, "FROM " ++ "dbo.users"]
          ++ (if c8WitnessParsed.conditions.isEmpty then []
              else ["WHERE " ++ String.intercalate " AND " c8WitnessParsed.conditions])
          ++ (if c8WitnessParsed.order_by.isEmpty then []
              else ["ORDER BY " ++ String.intercalate ", "
                (c8WitnessParsed.order_by.map (fun cd => cd.1 ++ " " ++ cd.2))])) :=
  ⟨sql_assembler_characterization.1 c8WitnessParsed "dbo.users" rfl, by decide,
   sql_assembler_characterization.2 c8WitnessParsed "dbo.users" rfl (by decide)⟩

/-- Claim C9: with no resolved table, `build_sql_query` returns the
diagnostic comment string, and `parse_conditions` returns an empty
predicate list whenever the analyzer is absent or the table hint is null or
unknown (both functions are total in this model, so neither can raise). -/
theorem unresolved_table_handling :
    (∀ p, p.table = none →
      build_sql_query p = "-- Error: No table identified in the query")
    ∧ (∀ a text, parse_conditions a text none = [])
    ∧ (∀ text tname, parse_conditions none text (some tname) = [])
    ∧ (∀ an text tname, alookup an.table_columns tname = none →
        parse_conditions (some an) text (some tname) = []) := by
  refine ⟨fun p h => ?_, fun a text => ?_, fun text tname => ?_,
          fun an text tname h => ?_⟩
  · simp [build_sql_query, h]
  · cases a <;> rfl
  · rfl
  · by_cases he : tname = ""
    · simp [parse_conditions, he]
    · simp [parse_conditions, he, h]

/-- Witness for C9: a table hint absent from the catalog yields no
predicates. -/
theorem unresolved_table_handling_witness :
    parse_conditions (some (emptyAnalyzer "srv" "db")) "age > 18" (some "dbo.x") = [] :=
  unresolved_table_handling.2.2.2 (emptyAnalyzer "srv" "db") "age > 18" "dbo.x" rfl

/-- Claim C10 counterexample: for the all-lower-case request
`show users where name = 'name'` against a catalog whose column is named
`Name`, the emitted predicate is `Name = 'Name'` — the hint-to-column
substitution rewrote the quoted value too, so the literal in the predicate
(and in the assembled SQL) is not lower-case. -/
theorem lowercase_literal_counterexample :
    (parse_natural_language (some cexAnalyzer) "show users where name = 'name'").conditions
      = ["Name = 'Name'"]
    ∧ build_sql_query (parse_natural_language (some cexAnalyzer)
        "show users where name = 'name'")
      = "SELECT *\nFROM dbo.users\nWHERE Name = 'Name'"
    ∧ quotedValue "Name = 'Name'" = "Name"
    ∧ pyLower "Name" ≠ "Name" := by
  exact ⟨by decide, by decide, by decide, by decide⟩

/-- Claim C10 (amended): `parse_natural_language` lower-cases and strips the
request before any extraction, so it returns exactly the same parse for `t`
and for `t.lower().strip()`; however, quoted string literals in the emitted
predicates are not always lower-case, because the substitution of the
resolved column name for the hint replaces every occurrence of the hint
inside the formatted predicate, including inside the quoted value. -/
theorem parse_normalization_idem :
    ∀ a q, parse_natural_language a q
      = parse_natural_language a (pyStrip (pyLower q)) := by
  intro a q
  unfold parse_natural_language
  rw [norm_idem]

theorem mem_keys_dictInsert {α : Type} {m : List (String × α)} {k k' : String} {v : α} :
    k ∈ (dictInsert m k' v).map (fun e => e.1) ↔
      (k ∈ m.map (fun e => e.1) ∨ k = k') := by
  unfold dictInsert
  by_cases ha : m.any (fun e => e.1 == k')
  · rw [if_pos ha]
    have hkeys : (m.map (fun e => if e.1 == k' then (k', v) else e)).map (fun e => e.1)
        = m.map (fun e => e.1) := by
      rw [List.map_map]
      apply List.map_congr_left
      intro e _
      by_cases h : e.1 == k'
      · simp only [Function.comp_apply, h, if_true]
        exact (eq_of_beq h).symm
      · have h' : ¬ e.1 = k' := fun hh => h (beq_iff_eq.mpr hh)
        simp [Function.comp_apply, h']
    rw [hkeys]
    constructor
    · exact Or.inl
    · rintro (h | rfl)
      · exact h
      · rcases List.any_eq_true.mp ha with ⟨e, he, hbeq⟩
        exact List.mem_map.mpr ⟨e, he, eq_of_beq hbeq⟩
  · rw [if_neg ha, List.map_append]
    simp [List.mem_append]

theorem alookup_eq_none_of_not_mem {α : Type} {m : List (String × α)} {k : String}
    (h : ¬ k ∈ m.map (fun e => e.1)) : alookup m k = none := by
  unfold alookup
  rw [List.find?_eq_none.mpr]
  · rfl
  · intro e he hbeq
    exact h (List.mem_map.mpr ⟨e, he, eq_of_beq hbeq⟩)

theorem filter_preserves_not_mem (rc : String → Option Nat)
    (sample : String → List SampleRow)
    (analyzeCols : String → List Column → List (String × ColumnStats))
    (nowTs : String) (min_rows : Nat) (k : String)
    (hk : get_table_row_count rc k < min_rows) :
    ∀ (td : List (String × List Column)) (a : Analyzer),
      ¬ k ∈ a.filtered_tables.map (fun e => e.1) →
      ¬ k ∈ a.table_columns.map (fun e => e.1) →
      ¬ k ∈ a.table_stats.map (fun e => e.1) →
      (¬ k ∈ (filter_and_analyze_tables rc sample analyzeCols nowTs a td
          min_rows).filtered_tables.map (fun e => e.1))
      ∧ (¬ k ∈ (filter_and_analyze_tables rc sample analyzeCols nowTs a td
          min_rows).table_columns.map (fun e => e.1))
      ∧ (¬ k ∈ (filter_and_analyze_tables rc sample analyzeCols nowTs a td
          min_rows).table_stats.map (fun e => e.1)) := by
  intro td
  induction td with
  | nil =>
    intro a h1 h2 h3
    exact ⟨h1, h2, h3⟩
  | cons kv rest ih =>
    intro a h1 h2 h3
    simp only [filter_and_analyze_tables, List.foldl_cons] at ih ⊢
    by_cases hc : min_rows ≤ get_table_row_count rc kv.1
    · have hne : k ≠ kv.1 := by
        intro heq
        rw [heq] at hk
        omega
      rw [if_pos hc]
      apply ih
      · intro hmem
        rcases mem_keys_dictInsert.mp hmem with h | h
        · exact h1 h
        · exact hne h
      · intro hmem
        rcases mem_keys_dictInsert.mp hmem with h | h
        · exact h2 h
        · exact hne h
      · intro hmem
        rcases mem_keys_dictInsert.mp hmem with h | h
        · exact h3 h
        · exact hne h
    · rw [if_neg hc]
      exact ih a h1 h2 h3

/-- Claim C2 (amended): a table whose queried row count is below `min_rows`
appears in none of `filtered_tables`, `table_columns` and `table_stats` —
hence its quality score falls back to 0 and it has no export entry — and a
failing row-count query behaves exactly like a count of zero (the fold over
the remaining tables is unchanged; processing never aborts).  However, the
lower-cased-name index `schema_info` is populated for every table before
filtering, so a dropped table can still be resolved by name. -/
theorem filter_drops_below_min_rows :
    ∀ (rc : String → Option Nat) (sample : String → List SampleRow)
      (analyzeCols : String → List Column → List (String × ColumnStats))
      (nowTs : String) (td : List (String × List Column)) (min_rows : Nat)
      (k srv db : String),
      get_table_row_count rc k < min_rows →
      (¬ k ∈ (filter_and_analyze_tables rc sample analyzeCols nowTs
          (emptyAnalyzer srv db) td min_rows).filtered_tables.map (fun e => e.1))
      ∧ (¬ k ∈ (filter_and_analyze_tables rc sample analyzeCols nowTs
          (emptyAnalyzer srv db) td min_rows).table_columns.map (fun e => e.1))
      ∧ (¬ k ∈ (filter_and_analyze_tables rc sample analyzeCols nowTs
          (emptyAnalyzer srv db) td min_rows).table_stats.map (fun e => e.1))
      ∧ calculate_data_quality_score (some (filter_and_analyze_tables rc sample
          analyzeCols nowTs (emptyAnalyzer srv db) td min_rows)) k = 0
      ∧ (∀ ts m, export_database_metadata (some (filter_and_analyze_tables rc sample
          analyzeCols nowTs (emptyAnalyzer srv db) td min_rows)) ts = some m →
          ¬ k ∈ m.tables.map (fun e => e.1))
      ∧ filter_and_analyze_tables rc sample analyzeCols nowTs (emptyAnalyzer srv db)
          td min_rows
        = filter_and_analyze_tables (fun t => some (get_table_row_count rc t)) sample
            analyzeCols nowTs (emptyAnalyzer srv db) td min_rows := by
  intro rc sample analyzeCols nowTs td min_rows k srv db hk
  obtain ⟨m1, m2, m3⟩ := filter_preserves_not_mem rc sample analyzeCols nowTs min_rows
    k hk td (emptyAnalyzer srv db) (by simp [emptyAnalyzer]) (by simp [emptyAnalyzer])
    (by simp [emptyAnalyzer])
  refine ⟨m1, m2, m3, ?_, ?_, rfl⟩
  · simp [calculate_data_quality_score, alookup_eq_none_of_not_mem m3]
  · intro ts m hm
    unfold export_database_metadata at hm
    have hmv := Option.some.inj hm
    intro hmem
    apply m1
    rw [← hmv] at hmem
    simp only [List.map_map] at hmem
    rcases List.mem_map.mp hmem with ⟨e, he, heq⟩
    exact List.mem_map.mpr ⟨e, he, heq⟩

/-- Witness for C2: with an always-failing row-count oracle and
`min_rows = 1`, table `dbo.empty` is kept out of `filtered_tables`. -/
theorem filter_drops_below_min_rows_witness :
    ¬ "dbo.empty" ∈ (filter_and_analyze_tables (fun _ => none) (fun _ => [])
      (fun _ _ => []) "t0" (emptyAnalyzer "srv" "db")
      [("dbo.empty", [])] 1).filtered_tables.map (fun e => e.1) :=
  (filter_drops_below_min_rows (fun _ => none) (fun _ => []) (fun _ _ => []) "t0"
    [("dbo.empty", [])] 1 "dbo.empty" "srv" "db" (by decide)).1

/-- Claim C2 counterexample: after `load_and_filter_schema` drops the
zero-row table `dbo.empty`, it is absent from all three catalog maps, yet
`find_table_by_name` still resolves the hint `"empty"` to `"dbo.empty"`,
because the grouping loop registers every table in `schema_info` before the
row-count filter runs — so the claim's "and hence in no ... resolution" is
false. -/
theorem dropped_table_resolution_counterexample :
    c2Result.filtered_tables = [] ∧ c2Result.table_columns = []
    ∧ c2Result.table_stats = []
    ∧ find_table_by_name (some c2Result) "empty" = some "dbo.empty" := by
  exact ⟨by decide, by decide, by decide, by decide⟩

/-- Claim C1 (code bug): exporting the one-table catalog `c1Analyzer` and
reloading the snapshot into a fresh catalog reproduces the table keys, row
counts and column lists, and the snapshot records the quality score 0.5 for
`dbo.t`; but recomputing the quality score on the reconstructed catalog
yields 0, because `load_metadata_from_json` never rebuilds `table_stats` —
so the recorded and recomputed scores differ, violating the claim. -/
theorem roundtrip_quality_bug :
    c1Reloaded.filtered_tables.map (fun e => e.1)
        = c1Analyzer.filtered_tables.map (fun e => e.1)
    ∧ c1Reloaded.filtered_tables.map (fun e => e.2.row_count)
        = c1Analyzer.filtered_tables.map (fun e => e.2.row_count)
    ∧ c1Reloaded.filtered_tables.map (fun e => e.2.columns)
        = c1Analyzer.filtered_tables.map (fun e => e.2.columns)
    ∧ c1Reloaded.table_columns = c1Analyzer.table_columns
    ∧ (alookup c1Snapshot.tables "dbo.t").map (fun t => t.statistics.data_quality_score)
        = some 0.5
    ∧ calculate_data_quality_score (some c1Reloaded) "dbo.t" = 0
    ∧ (0.5 : ℚ) ≠ 0 := by
  refine ⟨by decide, by decide, by decide, by decide, rfl, rfl, by norm_num⟩
